import Mathlib

/-!
Verification of the log-event detection and session-correlation engine of
user-session-monitor (Go). The definitions below are a shallow embedding of
src/internal/monitor/monitor.go (pattern matching, session table, logout
deduplication, line processing) and of the event bus in
src/internal/event (a single buffered Go channel).

Modelling choices:
- Machine time is modelled as a natural number of nanoseconds (Go
  time.Time / time.Duration at nanosecond resolution).
- Go maps are modelled as association lists; Go map iteration order is
  unspecified, the list order is one admissible iteration order.
- The regular expressions of monitor.go are embedded as direct maximal-munch
  parsers. For these patterns maximal munch coincides with the regexp
  semantics: every capture class (w+, digits, digits-and-dots) is followed
  in the pattern by a literal whose first character is outside the class,
  so no backtracking into a capture is ever possible, and alternatives of
  the one alternation (password|publickey) are mutually exclusive.
  FindStringSubmatch leftmost search is modelled by trying the pattern at
  every suffix, leftmost first.
- ServerMonitor.getServerInfo is modelled as total (the current server
  info is a parameter); its error branch only fires on environment
  failure and is outside the line-processing logic under test.
- The fire-and-forget cleanup goroutine spawned by recordLogout is
  modelled as data: a pending-cleanup list recording for each inserted
  dedup key the instant (insertion time + window) at which the spawned
  goroutine deletes it.
-/

namespace UserSessionMonitor

/-- ServerInfo mirrors types.ServerInfo: hostname, IP and OS type. -/
structure ServerInfo where
  hostname : String
  ip : String
  osType : String
deriving DecidableEq, Repr

/-- EventType mirrors types.TypeLogin / types.TypeLogout. -/
inductive EventType where
  | login
  | logout
deriving DecidableEq, Repr

/-- Event mirrors types.Event as published on the bus. -/
structure Event where
  type : EventType
  username : String
  ip : String
  port : String
  timestamp : Nat
  serverInfo : ServerInfo
deriving DecidableEq, Repr

/-- LoginRecord mirrors types.LoginRecord stored in loginRecords. -/
structure LoginRecord where
  username : String
  ip : String
  port : String
  lastLoginTime : Nat
deriving DecidableEq, Repr

/-- One nanosecond-denominated second, as in Go time.Second. -/
def second : Nat := 1000000000

/-- logoutDeduplicationWindow = 5 * time.Second (monitor.go). -/
def logoutDeduplicationWindow : Nat := 5 * second

/-- makeLoginKey builds the composite key username:ip:port (monitor.go). -/
def makeLoginKey (username ip port : String) : String :=
  username ++ ":" ++ ip ++ ":" ++ port

/-- Association-list lookup modelling a Go map read. -/
def lookupKey {α : Type} (k : String) : List (String × α) → Option α
  | [] => none
  | (k0, v) :: rest => if k0 = k then some v else lookupKey k rest

/-- Association-list deletion modelling the Go built-in delete. -/
def eraseKey {α : Type} (k : String) (m : List (String × α)) : List (String × α) :=
  m.filter (fun p => !(p.1 == k))

/-- Association-list insert-or-overwrite modelling a Go map assignment. -/
def mapInsert {α : Type} (k : String) (v : α) (m : List (String × α)) : List (String × α) :=
  eraseKey k m ++ [(k, v)]

/-- Word character of the Go regexp class w (ASCII letters, digits, underscore). -/
def isWordChar (c : Char) : Bool := c.isAlphanum || c = '_'

/-- Character of the Go regexp class of digits and dots, used for IPv4 literals. -/
def isIpChar (c : Char) : Bool := c.isDigit || c = '.'

/-- Longest nonempty prefix of characters satisfying p, with the remainder.
Models a greedy one-or-more character-class repetition that is followed in
the pattern by a literal starting outside the class. -/
def takeWhile1 (p : Char → Bool) : List Char → Option (List Char × List Char)
  | [] => none
  | c :: cs =>
    if p c then
      match takeWhile1 p cs with
      | some (tk, rest) => some (c :: tk, rest)
      | none => some ([c], cs)
    else none

/-- Require the literal lit as a prefix, returning the remainder. -/
def dropLit : List Char → List Char → Option (List Char)
  | [], cs => some cs
  | _ :: _, [] => none
  | l :: ls, c :: cs => if c = l then dropLit ls cs else none

/-- Try the anchored matcher f at every suffix, leftmost first: the model of
FindStringSubmatch unanchored search. -/
def scanFind {α : Type} (f : List Char → Option α) : List Char → Option α
  | [] => f []
  | c :: cs =>
    match f (c :: cs) with
    | some r => some r
    | none => scanFind f cs

/-- Substring test modelling strings.Contains. -/
def containsLit (needle : List Char) (cs : List Char) : Bool :=
  (scanFind (dropLit needle) cs).isSome

/-- Anchored match of loginPattern
(sshd, pid, Accepted password-or-publickey for user from ip port port):
captures (username, ip, port). -/
def loginMatchAt (cs : List Char) : Option (String × String × String) := do
  let r1 ← dropLit "sshd[".data cs
  let (_, r2) ← takeWhile1 Char.isDigit r1
  let r3 ← dropLit "]: Accepted ".data r2
  let r4 ←
    match dropLit "password".data r3 with
    | some r => some r
    | none => dropLit "publickey".data r3
  let r5 ← dropLit " for ".data r4
  let (u, r6) ← takeWhile1 isWordChar r5
  let r7 ← dropLit " from ".data r6
  let (i, r8) ← takeWhile1 isIpChar r7
  let r9 ← dropLit " port ".data r8
  let (p, _) ← takeWhile1 Char.isDigit r9
  pure (String.mk u, String.mk i, String.mk p)

/-- Unanchored loginPattern search (FindStringSubmatch). -/
def loginMatch (cs : List Char) : Option (String × String × String) :=
  scanFind loginMatchAt cs

/-- Anchored match of logout pattern 1
(Received disconnect from ip port port:11: disconnected by user):
captures (ip, port). -/
def logoutMatch1At (cs : List Char) : Option (String × String) := do
  let r1 ← dropLit "sshd[".data cs
  let (_, r2) ← takeWhile1 Char.isDigit r1
  let r3 ← dropLit "]: Received disconnect from ".data r2
  let (i, r4) ← takeWhile1 isIpChar r3
  let r5 ← dropLit " port ".data r4
  let (p, r6) ← takeWhile1 Char.isDigit r5
  let _ ← dropLit ":11: disconnected by user".data r6
  pure (String.mk i, String.mk p)

/-- Unanchored search for logout pattern 1. -/
def logoutMatch1 (cs : List Char) : Option (String × String) :=
  scanFind logoutMatch1At cs

/-- Anchored match of logout pattern 2
(Disconnected from user user ip port port): captures (username, ip, port). -/
def logoutMatch2At (cs : List Char) : Option (String × String × String) := do
  let r1 ← dropLit "sshd[".data cs
  let (_, r2) ← takeWhile1 Char.isDigit r1
  let r3 ← dropLit "]: Disconnected from user ".data r2
  let (u, r4) ← takeWhile1 isWordChar r3
  let r5 ← dropLit " ".data r4
  let (i, r6) ← takeWhile1 isIpChar r5
  let r7 ← dropLit " port ".data r6
  let (p, _) ← takeWhile1 Char.isDigit r7
  pure (String.mk u, String.mk i, String.mk p)

/-- Unanchored search for logout pattern 2. -/
def logoutMatch2 (cs : List Char) : Option (String × String × String) :=
  scanFind logoutMatch2At cs

/-- Anchored match of logout pattern 3
(pam_unix sshd session closed for user user): captures (username). -/
def logoutMatch3At (cs : List Char) : Option String := do
  let r1 ← dropLit "sshd[".data cs
  let (_, r2) ← takeWhile1 Char.isDigit r1
  let r3 ← dropLit "]: pam_unix(sshd:session): session closed for user ".data r2
  let (u, _) ← takeWhile1 isWordChar r3
  pure (String.mk u)

/-- Unanchored search for logout pattern 3. -/
def logoutMatch3 (cs : List Char) : Option String :=
  scanFind logoutMatch3At cs

/-- MonitorState: the mutable package-level maps of monitor.go, plus the
pending dedup-entry deletions scheduled by recordLogout goroutines. -/
structure MonitorState where
  loginRecords : List (String × LoginRecord)
  logoutRecords : List (String × Nat)
  pendingCleanups : List (String × Nat)
deriving DecidableEq, Repr

/-- Initial state: both maps empty, no cleanups pending. -/
def initialState : MonitorState := ⟨[], [], []⟩

/-- isRecentLogout (monitor.go): key present and within the dedup window. -/
def isRecentLogout (now : Nat) (s : MonitorState) (username ip port : String) : Bool :=
  match lookupKey (makeLoginKey username ip port) s.logoutRecords with
  | none => false
  | some t => decide (now - t < logoutDeduplicationWindow)

/-- recordLogout (monitor.go): stamp the key with now and schedule its
deletion one window later (the spawned goroutine, as data). -/
def recordLogout (now : Nat) (s : MonitorState) (username ip port : String) : MonitorState :=
  let k := makeLoginKey username ip port
  { s with
    logoutRecords := mapInsert k now s.logoutRecords,
    pendingCleanups := s.pendingCleanups ++ [(k, now + logoutDeduplicationWindow)] }

/-- First login record whose ip and port match, in iteration order
(the range loop of the Received-disconnect branch). -/
def findByIpPort (ip port : String) : List (String × LoginRecord) → Option LoginRecord
  | [] => none
  | (_, r) :: rest =>
    if r.ip = ip ∧ r.port = port then some r else findByIpPort ip port rest

/-- First login record whose username matches, in iteration order
(the range loop of the session-closed branch). -/
def findByUsername (username : String) : List (String × LoginRecord) → Option LoginRecord
  | [] => none
  | (_, r) :: rest =>
    if r.username = username then some r else findByUsername username rest

/-- Literal used by the strings.Contains guard of the switch in processLine. -/
def receivedDisconnectLit : List Char := "Received disconnect".data

/-- Identity correlation of the pattern-1 branch: the switch case guarded by
len(matches) == 3 together with strings.Contains(line, the literal); when the
guard fails the switch falls through and all three fields stay empty. -/
def correlate1 (recs : List (String × LoginRecord)) (cs : List Char)
    (ip port : String) : String × String × String :=
  if containsLit receivedDisconnectLit cs then
    let u0 :=
      match findByIpPort ip port recs with
      | some r => r.username
      | none => ""
    (if u0 = "" then "未知用户" else u0, ip, port)
  else ("", "", "")

/-- Identity correlation of the pattern-3 branch: look up ip and port by
username; when the found (or absent) ip is empty, both fall back to the
sentinels. -/
def correlate3 (recs : List (String × LoginRecord)) (username : String) :
    String × String × String :=
  let ipPort :=
    match findByUsername username recs with
    | some r => (r.ip, r.port)
    | none => ("", "")
  if ipPort.1 = "" then (username, "未知IP", "未知端口")
  else (username, ipPort.1, ipPort.2)

/-- The logout loop of processLine up to the point where the switch has
produced (username, ip, port): patterns tried in fixed order, first match
wins. -/
def logoutIdentity (recs : List (String × LoginRecord)) (cs : List Char) :
    Option (String × String × String) :=
  match logoutMatch1 cs with
  | some (i, p) => some (correlate1 recs cs i p)
  | none =>
    match logoutMatch2 cs with
    | some t => some t
    | none =>
      match logoutMatch3 cs with
      | some u => some (correlate3 recs u)
      | none => none

/-- Tail of the logout branch of processLine: dedup check, recordLogout,
publish, conditional deletion of the login record. -/
def emitLogout (si : ServerInfo) (now : Nat) (s : MonitorState)
    (username ip port : String) : MonitorState × List Event :=
  if isRecentLogout now s username ip port then (s, [])
  else
    let s1 := recordLogout now s username ip port
    let s2 :=
      if username ≠ "未知用户" ∧ ip ≠ "未知IP" then
        { s1 with loginRecords := eraseKey (makeLoginKey username ip port) s1.loginRecords }
      else s1
    (s2, [⟨EventType.logout, username, ip, port, now, si⟩])

/-- processLine (monitor.go): login pattern first, then the logout patterns
in order; publishes at most one event per line. -/
def processLine (si : ServerInfo) (now : Nat) (s : MonitorState) (line : String) :
    MonitorState × List Event :=
  match loginMatch line.data with
  | some (u, i, p) =>
    ({ s with
        loginRecords :=
          mapInsert (makeLoginKey u i p)
            { username := u, ip := i, port := p, lastLoginTime := now }
            s.loginRecords },
     [⟨EventType.login, u, i, p, now, si⟩])
  | none =>
    match logoutIdentity s.loginRecords line.data with
    | some (u, i, p) => emitLogout si now s u i p
    | none => (s, [])

/-- Process a timed sequence of lines, collecting all published events. -/
def processTrace (si : ServerInfo) : MonitorState → List (Nat × String) →
    MonitorState × List Event
  | s, [] => (s, [])
  | s, (t, line) :: rest =>
    let r := processLine si t s line
    let r2 := processTrace si r.1 rest
    (r2.1, r.2 ++ r2.2)

/-- Test for logout events, used to count logout publications in a trace. -/
def isLogoutEvent (e : Event) : Bool :=
  match e.type with
  | EventType.logout => true
  | EventType.login => false

/-!
Event bus (src/internal/event, both the Bus of the current event package
and the identical EventBus variant). The Go Bus holds a single buffered
channel; Publish is a plain channel send and Subscribe returns that same
channel value. Channels live in a small heap (World) so that channel
identity and shared buffer state are explicit; a blocked operation (send on
a full buffer, receive on an empty one) is modelled as none, meaning it
cannot complete without a concurrent counterpart.
-/

/-- ChanState: one buffered Go channel of events. -/
structure ChanState where
  capacity : Nat
  buffer : List Event
deriving DecidableEq, Repr

/-- World: the heap of allocated channels; a channel value is its index. -/
structure World where
  chans : List ChanState
deriving DecidableEq, Repr

/-- Bus mirrors event.Bus: a single channel field. -/
structure Bus where
  eventChan : Nat
deriving DecidableEq, Repr

/-- NewBus: make(chan types.Event, bufferSize) stored in a new Bus. -/
def newBus (w : World) (bufferSize : Nat) : World × Bus :=
  (⟨w.chans ++ [⟨bufferSize, []⟩]⟩, ⟨w.chans.length⟩)

/-- Publish: the channel send eb.eventChan <- event. It completes (some)
exactly when the buffer has free space, appending the event once to the
single shared buffer; on a full buffer the send blocks (none). -/
def Bus.Publish (w : World) (b : Bus) (e : Event) : Option World :=
  match w.chans.get? b.eventChan with
  | none => none
  | some ch =>
    if ch.buffer.length < ch.capacity then
      some ⟨w.chans.set b.eventChan { ch with buffer := ch.buffer ++ [e] }⟩
    else none

/-- Subscribe: returns eb.eventChan, the same channel value on every call. -/
def Bus.Subscribe (b : Bus) : Nat := b.eventChan

/-- Receive on a channel: pops the head of the buffer; blocks (none) when
the buffer is empty. -/
def recvChan (w : World) (c : Nat) : Option (World × Event) :=
  match w.chans.get? c with
  | none => none
  | some ch =>
    match ch.buffer with
    | [] => none
    | e :: rest => some (⟨w.chans.set c { ch with buffer := rest }⟩, e)


theorem takeWhile1_sound {p : Char → Bool} :
    ∀ {l tk rest : List Char}, takeWhile1 p l = some (tk, rest) →
      tk ≠ [] ∧ (∀ c ∈ tk, p c = true) ∧ l = tk ++ rest := by
  intro l
  induction l with
  | nil => intro tk rest h; simp [takeWhile1] at h
  | cons c cs ih =>
    intro tk rest h
    unfold takeWhile1 at h
    split at h
    case isTrue hp =>
      split at h
      case h_1 tk2 rest2 heq =>
        simp only [Option.some.injEq, Prod.mk.injEq] at h
        obtain ⟨h1, h2⟩ := h
        subst h1; subst h2
        obtain ⟨hne, hall, happ⟩ := ih heq
        refine ⟨by simp, ?_, by simp [happ]⟩
        intro d hd
        rcases List.mem_cons.mp hd with h | h
        · subst h; exact hp
        · exact hall d h
      case h_2 heq =>
        simp only [Option.some.injEq, Prod.mk.injEq] at h
        obtain ⟨h1, h2⟩ := h
        subst h1; subst h2
        exact ⟨by simp, by intro d hd; simp at hd; subst hd; exact hp, by simp⟩
    case isFalse hp => simp at h

theorem dropLit_sound :
    ∀ {lit l r : List Char}, dropLit lit l = some r → l = lit ++ r := by
  intro lit
  induction lit with
  | nil => intro l r h; simp [dropLit] at h; simp [h]
  | cons a as ih =>
    intro l r h
    cases l with
    | nil => simp [dropLit] at h
    | cons c cs =>
      unfold dropLit at h
      split at h
      case isTrue hc => subst hc; simp [ih h]
      case isFalse hc => simp at h

theorem dropLit_self : ∀ (lit r : List Char), dropLit lit (lit ++ r) = some r := by
  intro lit
  induction lit with
  | nil => intro r; simp [dropLit]
  | cons a as ih => intro r; simp [dropLit, ih]

theorem scanFind_sound {α : Type} {f : List Char → Option α} :
    ∀ {cs : List Char} {r : α}, scanFind f cs = some r →
      ∃ a l, cs = a ++ l ∧ f l = some r := by
  intro cs
  induction cs with
  | nil => intro r h; exact ⟨[], [], by simp, h⟩
  | cons c cs ih =>
    intro r h
    unfold scanFind at h
    split at h
    case h_1 r2 heq =>
      cases h
      exact ⟨[], c :: cs, by simp, heq⟩
    case h_2 heq =>
      obtain ⟨a, l, happ, hf⟩ := ih h
      exact ⟨c :: a, l, by simp [happ], hf⟩

theorem scanFind_isSome_here {α : Type} {f : List Char → Option α} {cs : List Char}
    (h : (f cs).isSome = true) : (scanFind f cs).isSome = true := by
  cases cs with
  | nil => simpa [scanFind] using h
  | cons c cs =>
    unfold scanFind
    cases heq : f (c :: cs) with
    | some r => simp
    | none => rw [heq] at h; simp at h

theorem scanFind_isSome_cons {α : Type} {f : List Char → Option α} {c : Char}
    {cs : List Char} (h : (scanFind f cs).isSome = true) :
    (scanFind f (c :: cs)).isSome = true := by
  unfold scanFind
  cases heq : f (c :: cs) with
  | some r => simp
  | none => simpa using h

theorem logoutMatch2At_chars {l : List Char} {u i p : String}
    (h : logoutMatch2At l = some (u, i, p)) :
    (u.data ≠ [] ∧ ∀ c ∈ u.data, isWordChar c = true) ∧
    (i.data ≠ [] ∧ ∀ c ∈ i.data, isIpChar c = true) := by
  unfold logoutMatch2At at h
  simp only [bind, Option.bind_eq_some, Option.pure_def, Option.some.injEq,
    Prod.mk.injEq] at h
  obtain ⟨r1, h1, ⟨d2, r2⟩, h2, r3, h3, ⟨tu, r4⟩, h4, r5, h5, ⟨ti, r6⟩, h6,
    r7, h7, ⟨tp, r8⟩, h8, hu, hi, hp⟩ := h
  obtain ⟨hune, huall, _⟩ := takeWhile1_sound h4
  obtain ⟨hine, hiall, _⟩ := takeWhile1_sound h6
  subst hu; subst hi
  exact ⟨⟨hune, huall⟩, ⟨hine, hiall⟩⟩

theorem logoutMatch2_chars {cs : List Char} {u i p : String}
    (h : logoutMatch2 cs = some (u, i, p)) :
    (u.data ≠ [] ∧ ∀ c ∈ u.data, isWordChar c = true) ∧
    (i.data ≠ [] ∧ ∀ c ∈ i.data, isIpChar c = true) := by
  obtain ⟨a, l, _, hAt⟩ := scanFind_sound h
  exact logoutMatch2At_chars hAt

theorem word_string_ne_sentinel_user {u : String}
    (hall : ∀ c ∈ u.data, isWordChar c = true) : u ≠ "未知用户" := by
  intro he
  subst he
  have : isWordChar '未' = true := hall '未' (by decide)
  simp [isWordChar] at this

theorem ip_string_ne_sentinel_ip {i : String}
    (hall : ∀ c ∈ i.data, isIpChar c = true) : i ≠ "未知IP" := by
  intro he
  subst he
  have : isIpChar '未' = true := hall '未' (by decide)
  simp [isIpChar] at this

theorem logoutMatch1At_contains {l : List Char} {i p : String}
    (h : logoutMatch1At l = some (i, p)) :
    ∃ a b, l = a ++ receivedDisconnectLit ++ b := by
  unfold logoutMatch1At at h
  simp only [bind, Option.bind_eq_some, Option.pure_def, Option.some.injEq,
    Prod.mk.injEq] at h
  obtain ⟨r1, h1, ⟨d2, r2⟩, h2, r3, h3, hrest⟩ := h
  have e1 := dropLit_sound h1
  have e2 := (takeWhile1_sound h2).2.2
  have e3 := dropLit_sound h3
  dsimp only at e3
  refine ⟨"sshd[".data ++ d2 ++ "]: ".data, " from ".data ++ r3, ?_⟩
  rw [e1, e2, e3]
  simp only [receivedDisconnectLit, List.append_assoc]
  rfl

theorem findByIpPort_sound {ip port : String} :
    ∀ {recs : List (String × LoginRecord)} {r : LoginRecord},
      findByIpPort ip port recs = some r → r.ip = ip ∧ r.port = port := by
  intro recs
  induction recs with
  | nil => intro r h; simp [findByIpPort] at h
  | cons e rest ih =>
    intro r h
    unfold findByIpPort at h
    split at h
    case isTrue hc => cases h; exact hc
    case isFalse hc => exact ih h

theorem containsLit_of_append :
    ∀ {a : List Char} {needle b cs : List Char}, cs = a ++ needle ++ b →
      containsLit needle cs = true := by
  intro a
  induction a with
  | nil =>
    intro needle b cs h
    simp only [List.nil_append] at h
    subst h
    unfold containsLit
    exact scanFind_isSome_here (by simp [dropLit_self])
  | cons c a ih =>
    intro needle b cs h
    subst h
    have := @ih needle b (a ++ needle ++ b) rfl
    unfold containsLit at this ⊢
    exact scanFind_isSome_cons this


theorem logoutMatch1_contains {cs : List Char} {i p : String}
    (h : logoutMatch1 cs = some (i, p)) :
    containsLit receivedDisconnectLit cs = true := by
  obtain ⟨a, l, hcs, hAt⟩ := scanFind_sound h
  obtain ⟨a2, b, hl⟩ := logoutMatch1At_contains hAt
  exact @containsLit_of_append (a ++ a2) receivedDisconnectLit b cs
    (by rw [hcs, hl]; simp)

end UserSessionMonitor

namespace UserSessionMonitor

/-- Claim C1 (code behavior at the claimed scenario): feeding the
scenario-2 login line and then two logout lines for the same underlying
session within the dedup window (pattern 2, then pattern 3 for the same
user) publishes TWO logout events, not one: the pattern-2 logout deletes
the session-table entry, so the session-closed line correlates to the
sentinel ip and port, its dedup key differs from the recorded one, and its
emission is not suppressed. This refutes the claimed idempotence. -/
theorem c1_duplicate_logout_emitted_twice :
    ((processTrace ⟨"host1", "192.168.1.100", "debian"⟩ initialState
      [(0, "sshd[100]: Accepted password for alice from 10.0.0.5 port 4422 ssh2"),
       (1 * second, "sshd[101]: Disconnected from user alice 10.0.0.5 port 4422"),
       (2 * second, "sshd[102]: pam_unix(sshd:session): session closed for user alice")]).2.filter
        isLogoutEvent).length = 2 := by
  rfl

/-- Claim C4: for every log line matching the login grammar, processing the
line extracts exactly (username, ip, port) from the three capture groups,
inserts a session-table entry keyed (username, ip, port) recording the
login time, and publishes exactly one Login event carrying exactly those
three field values. -/
theorem c4_login_processing (si : ServerInfo) (now : Nat) (s : MonitorState)
    (line : String) (u i p : String)
    (h : loginMatch line.data = some (u, i, p)) :
    processLine si now s line =
      ({ s with
          loginRecords :=
            mapInsert (makeLoginKey u i p)
              { username := u, ip := i, port := p, lastLoginTime := now }
              s.loginRecords },
       [⟨EventType.login, u, i, p, now, si⟩]) := by
  simp [processLine, h]

/-- Witness for c4_login_processing at the end-to-end scenario-1 line. -/
theorem c4_login_processing_witness :
    processLine ⟨"host1", "192.168.1.100", "debian"⟩ 0 initialState
      "sshd[100]: Accepted password for alice from 10.0.0.5 port 4422 ssh2" =
      ({ initialState with
          loginRecords :=
            mapInsert (makeLoginKey "alice" "10.0.0.5" "4422")
              { username := "alice", ip := "10.0.0.5", port := "4422", lastLoginTime := 0 }
              initialState.loginRecords },
       [⟨EventType.login, "alice", "10.0.0.5", "4422", 0,
         ⟨"host1", "192.168.1.100", "debian"⟩⟩]) :=
  c4_login_processing _ _ _ _ _ _ _ (by rfl)

/-- Claim C10: for every logout line whose correlated key has a dedup entry
within the 5-second window, processing the line publishes no event and
leaves the whole state unchanged (no session-table deletion, no dedup
mutation, no refreshed timestamp); consequently once the recorded emission
time is a full window in the past, the key is no longer suppressed. -/
theorem c10_suppression_frame (si : ServerInfo) (now : Nat) (s : MonitorState)
    (line : String) (u i p : String)
    (hlogin : loginMatch line.data = none)
    (hid : logoutIdentity s.loginRecords line.data = some (u, i, p))
    (hrec : isRecentLogout now s u i p = true) :
    processLine si now s line = (s, []) ∧
    ∀ t now2, lookupKey (makeLoginKey u i p) s.logoutRecords = some t →
      t + logoutDeduplicationWindow ≤ now2 →
      isRecentLogout now2 (processLine si now s line).1 u i p = false := by
  have hmain : processLine si now s line = (s, []) := by
    simp [processLine, hlogin, hid, emitLogout, hrec]
  refine ⟨hmain, ?_⟩
  intro t now2 hlk hle
  rw [hmain]
  unfold isRecentLogout
  rw [hlk]
  simp only [decide_eq_false_iff_not]
  omega

/-- Witness for c10_suppression_frame: a second pattern-2 logout line one
second after a recorded logout for the same key is dropped with no state
change, and stops being suppressed once the window has fully elapsed. -/
theorem c10_suppression_frame_witness :
    processLine ⟨"host1", "192.168.1.100", "debian"⟩ (1 * second)
      ⟨[], [("alice:10.0.0.5:4422", 0)], []⟩
      "sshd[101]: Disconnected from user alice 10.0.0.5 port 4422" =
      (⟨[], [("alice:10.0.0.5:4422", 0)], []⟩, []) :=
  (c10_suppression_frame _ _ _ _ _ _ _ (by rfl) (by rfl) (by rfl)).1

/-- Claim C9: after correlating a logout identity and publishing the event,
the session-table entry for that key is deleted if and only if both
username and ip are non-sentinel; if a sentinel remains in either field the
session table is left unchanged by the deletion step. -/
theorem processLine_logout_eq (si : ServerInfo) (now : Nat) (s : MonitorState)
    (line : String) (u i p : String)
    (hlogin : loginMatch line.data = none)
    (hid : logoutIdentity s.loginRecords line.data = some (u, i, p)) :
    processLine si now s line = emitLogout si now s u i p := by
  unfold processLine
  rw [hlogin, hid]

/-- Claim C9: after correlating a logout identity and publishing the event,
the session-table entry for that key is deleted if and only if both
username and ip are non-sentinel; if a sentinel remains in either field the
session table is left unchanged by the deletion step. -/
theorem c9_conditional_delete (si : ServerInfo) (now : Nat) (s : MonitorState)
    (line : String) (u i p : String)
    (hlogin : loginMatch line.data = none)
    (hid : logoutIdentity s.loginRecords line.data = some (u, i, p))
    (hrec : isRecentLogout now s u i p = false) :
    (processLine si now s line).2 = [⟨EventType.logout, u, i, p, now, si⟩] ∧
    (processLine si now s line).1.loginRecords =
      (if u ≠ "未知用户" ∧ i ≠ "未知IP"
       then eraseKey (makeLoginKey u i p) s.loginRecords
       else s.loginRecords) := by
  rw [processLine_logout_eq si now s line u i p hlogin hid]
  simp only [emitLogout, hrec, Bool.false_eq_true, if_false]
  constructor
  · trivial
  · split <;> rfl

/-- Witness for c9_conditional_delete at a session-closed line with an
empty session table: both ip and port degrade to sentinels, the event is
still published, and the session table is left unchanged. -/
theorem c9_conditional_delete_witness :
    (processLine ⟨"host1", "192.168.1.100", "debian"⟩ 0 initialState
      "sshd[102]: pam_unix(sshd:session): session closed for user bob").2 =
      [⟨EventType.logout, "bob", "未知IP", "未知端口", 0,
        ⟨"host1", "192.168.1.100", "debian"⟩⟩] :=
  (c9_conditional_delete _ _ _ _ _ _ _ (by rfl) (by rfl) (by rfl)).1

end UserSessionMonitor

namespace UserSessionMonitor

/-- Claim C5: a logout emission for a correlated key is suppressed if and
only if the dedup table holds an entry for that key whose recorded time is
within the 5-second window of now; otherwise the entry is set or
overwritten to now, the event is emitted, and removal of the entry is
scheduled for one window later — so a further logout line for the same key
arriving after the window has elapsed is published, not suppressed. -/
theorem c5_dedup_window (si : ServerInfo) (now : Nat) (s : MonitorState)
    (line : String) (u i p : String)
    (hlogin : loginMatch line.data = none)
    (hid : logoutIdentity s.loginRecords line.data = some (u, i, p)) :
    (isRecentLogout now s u i p = true ↔
      ∃ t, lookupKey (makeLoginKey u i p) s.logoutRecords = some t ∧
        now - t < logoutDeduplicationWindow)
    ∧ (isRecentLogout now s u i p = true → processLine si now s line = (s, []))
    ∧ (isRecentLogout now s u i p = false →
        (processLine si now s line).2 = [⟨EventType.logout, u, i, p, now, si⟩]
        ∧ (processLine si now s line).1.logoutRecords =
            mapInsert (makeLoginKey u i p) now s.logoutRecords
        ∧ (processLine si now s line).1.pendingCleanups =
            s.pendingCleanups ++
              [(makeLoginKey u i p, now + logoutDeduplicationWindow)]) := by
  refine ⟨?_, ?_, ?_⟩
  · unfold isRecentLogout
    cases hlk : lookupKey (makeLoginKey u i p) s.logoutRecords with
    | none => simp
    | some t => simp [hlk]
  · intro hrec
    rw [processLine_logout_eq si now s line u i p hlogin hid]
    simp [emitLogout, hrec]
  · intro hrec
    rw [processLine_logout_eq si now s line u i p hlogin hid]
    simp only [emitLogout, hrec, Bool.false_eq_true, if_false]
    refine ⟨trivial, ?_, ?_⟩ <;> split <;> rfl

/-- Witness for c5_dedup_window: a pattern-2 logout on a fresh state is
emitted, stamps the dedup table, and schedules the cleanup; the iff shows
it would have been suppressed only within the window. -/
theorem c5_dedup_window_witness :
    (processLine ⟨"host1", "192.168.1.100", "debian"⟩ (6 * second)
        ⟨[], [("alice:10.0.0.5:4422", 0)], []⟩
        "sshd[101]: Disconnected from user alice 10.0.0.5 port 4422").2 =
      [⟨EventType.logout, "alice", "10.0.0.5", "4422", 6 * second,
        ⟨"host1", "192.168.1.100", "debian"⟩⟩] :=
  ((c5_dedup_window _ _ _ _ _ _ _ (by rfl) (by rfl)).2.2 (by rfl)).1

/-- Claim C6: for every logout line of pattern-2 shape, the published
Logout event carries username, ip and port taken directly from the capture
groups regardless of the session-table contents (no lookup), and the
session-table entry for that key is removed (the captured fields can never
equal the sentinels, so the deletion guard always passes). -/
theorem c6_pattern2_logout (si : ServerInfo) (now : Nat) (s : MonitorState)
    (line : String) (u i p : String)
    (hlogin : loginMatch line.data = none)
    (h1 : logoutMatch1 line.data = none)
    (h2 : logoutMatch2 line.data = some (u, i, p))
    (hrec : isRecentLogout now s u i p = false) :
    processLine si now s line =
      ({ loginRecords := eraseKey (makeLoginKey u i p) s.loginRecords,
         logoutRecords := mapInsert (makeLoginKey u i p) now s.logoutRecords,
         pendingCleanups :=
           s.pendingCleanups ++
             [(makeLoginKey u i p, now + logoutDeduplicationWindow)] },
       [⟨EventType.logout, u, i, p, now, si⟩]) := by
  have hid : logoutIdentity s.loginRecords line.data = some (u, i, p) := by
    unfold logoutIdentity
    rw [h1, h2]
  obtain ⟨⟨_, huall⟩, ⟨_, hiall⟩⟩ := logoutMatch2_chars h2
  have hu : u ≠ "未知用户" := word_string_ne_sentinel_user huall
  have hi : i ≠ "未知IP" := ip_string_ne_sentinel_ip hiall
  rw [processLine_logout_eq si now s line u i p hlogin hid]
  simp only [emitLogout, hrec, Bool.false_eq_true, if_false]
  rw [if_pos ⟨hu, hi⟩]
  rfl

/-- Witness for c6_pattern2_logout at the end-to-end scenario-2 logout
line, with the matching session entry present: it is removed. -/
theorem c6_pattern2_logout_witness :
    processLine ⟨"host1", "192.168.1.100", "debian"⟩ (1 * second)
      ⟨[("alice:10.0.0.5:4422",
          { username := "alice", ip := "10.0.0.5", port := "4422", lastLoginTime := 0 })],
        [], []⟩
      "sshd[101]: Disconnected from user alice 10.0.0.5 port 4422" =
      ({ loginRecords := [],
         logoutRecords := [("alice:10.0.0.5:4422", 1 * second)],
         pendingCleanups :=
           [("alice:10.0.0.5:4422", 1 * second + logoutDeduplicationWindow)] },
       [⟨EventType.logout, "alice", "10.0.0.5", "4422", 1 * second,
         ⟨"host1", "192.168.1.100", "debian"⟩⟩]) := by
  have h := c6_pattern2_logout ⟨"host1", "192.168.1.100", "debian"⟩ (1 * second)
    ⟨[("alice:10.0.0.5:4422",
        { username := "alice", ip := "10.0.0.5", port := "4422", lastLoginTime := 0 })],
      [], []⟩
    "sshd[101]: Disconnected from user alice 10.0.0.5 port 4422"
    "alice" "10.0.0.5" "4422" (by rfl) (by rfl) (by rfl) (by rfl)
  rw [h]
  rfl

end UserSessionMonitor

namespace UserSessionMonitor

/-- Claim C7: for every pattern-1 (Received disconnect) logout line, the
correlated identity keeps ip and port from the capture groups; the username
is taken from a session-table record matching that ip and port when one
exists, and is the sentinel 未知用户 when none does; in either case the
event is published (given it is not a dedup duplicate) with ip and port
from the line — degrade, not fail. -/
theorem c7_pattern1_sentinel (si : ServerInfo) (now : Nat) (s : MonitorState)
    (line : String) (i p : String)
    (hlogin : loginMatch line.data = none)
    (h1 : logoutMatch1 line.data = some (i, p)) :
    ∃ u, logoutIdentity s.loginRecords line.data = some (u, i, p)
      ∧ (findByIpPort i p s.loginRecords = none → u = "未知用户")
      ∧ (∀ r, findByIpPort i p s.loginRecords = some r →
          r.ip = i ∧ r.port = p ∧ (r.username ≠ "" → u = r.username))
      ∧ (isRecentLogout now s u i p = false →
          (processLine si now s line).2 =
            [⟨EventType.logout, u, i, p, now, si⟩]) := by
  have hc : containsLit receivedDisconnectLit line.data = true :=
    logoutMatch1_contains h1
  cases hf : findByIpPort i p s.loginRecords with
  | none =>
    have hcor : correlate1 s.loginRecords line.data i p = ("未知用户", i, p) := by
      simp [correlate1, hc, hf]
    have hid : logoutIdentity s.loginRecords line.data = some ("未知用户", i, p) := by
      simp [logoutIdentity, h1, hcor]
    refine ⟨"未知用户", hid, fun _ => rfl, ?_, ?_⟩
    · intro r hr; exact Option.noConfusion hr
    · intro hrec
      rw [processLine_logout_eq si now s line _ i p hlogin hid]
      simp [emitLogout, hrec]
  | some r =>
    by_cases hru : r.username = ""
    · have hcor : correlate1 s.loginRecords line.data i p = ("未知用户", i, p) := by
        simp [correlate1, hc, hf, hru]
      have hid : logoutIdentity s.loginRecords line.data = some ("未知用户", i, p) := by
        simp [logoutIdentity, h1, hcor]
      refine ⟨"未知用户", hid, fun _ => rfl, ?_, ?_⟩
      · intro r2 hr2
        injection hr2 with h
        subst h
        obtain ⟨hip, hport⟩ := findByIpPort_sound hf
        exact ⟨hip, hport, fun hne => absurd hru hne⟩
      · intro hrec
        rw [processLine_logout_eq si now s line _ i p hlogin hid]
        simp [emitLogout, hrec]
    · have hcor : correlate1 s.loginRecords line.data i p = (r.username, i, p) := by
        simp [correlate1, hc, hf, hru]
      have hid : logoutIdentity s.loginRecords line.data =
          some (r.username, i, p) := by
        simp [logoutIdentity, h1, hcor]
      refine ⟨r.username, hid, ?_, ?_, ?_⟩
      · intro hnone; exact Option.noConfusion hnone
      · intro r2 hr2
        injection hr2 with h
        subst h
        obtain ⟨hip, hport⟩ := findByIpPort_sound hf
        exact ⟨hip, hport, fun _ => rfl⟩
      · intro hrec
        rw [processLine_logout_eq si now s line _ i p hlogin hid]
        simp [emitLogout, hrec]

/-- Witness for c7_pattern1_sentinel: the testable-property line with no
prior login recorded yields the sentinel username with ip and port from
the line. -/
theorem c7_pattern1_sentinel_witness :
    (processLine ⟨"host1", "192.168.1.100", "debian"⟩ 0 initialState
      "sshd[103]: Received disconnect from 10.0.0.5 port 4422:11: disconnected by user").2 =
      [⟨EventType.logout, "未知用户", "10.0.0.5", "4422", 0,
        ⟨"host1", "192.168.1.100", "debian"⟩⟩] := by
  obtain ⟨u, hid, hnone, hsome, hpub⟩ :=
    c7_pattern1_sentinel ⟨"host1", "192.168.1.100", "debian"⟩ 0 initialState
      "sshd[103]: Received disconnect from 10.0.0.5 port 4422:11: disconnected by user"
      "10.0.0.5" "4422" (by rfl) (by rfl)
  have hu : u = "未知用户" := hnone (by rfl)
  have := hpub (by rw [hu]; rfl)
  rw [hu] at this
  exact this

end UserSessionMonitor

namespace UserSessionMonitor

/-- Claim C8: the three logout patterns are tried in their fixed list
order and the first matching pattern wins: at most one event is ever
published for a line, and when a pathological line matches both pattern 1
and pattern 2, processing equals the pattern-1 processing — the
authoritative ip and port are pattern-1 captures (username filled by
session-table lookup), pattern-2 extraction is ignored, and every
published event carries pattern-1 ip and port. -/
theorem c8_pattern_order (si : ServerInfo) (now : Nat) (s : MonitorState)
    (line : String) :
    (processLine si now s line).2.length ≤ 1 ∧
    (∀ i p u2 i2 p2,
      loginMatch line.data = none →
      logoutMatch1 line.data = some (i, p) →
      logoutMatch2 line.data = some (u2, i2, p2) →
      (processLine si now s line =
        emitLogout si now s (correlate1 s.loginRecords line.data i p).1 i p)
      ∧ ∀ e ∈ (processLine si now s line).2, e.ip = i ∧ e.port = p) := by
  constructor
  · unfold processLine
    cases hm : loginMatch line.data with
    | some t => obtain ⟨u, i, p⟩ := t; simp
    | none =>
      cases hid : logoutIdentity s.loginRecords line.data with
      | none => simp
      | some t =>
        obtain ⟨u, i, p⟩ := t
        simp only [emitLogout]
        split
        · simp
        · simp
  · intro i p u2 i2 p2 hlogin h1 h2
    have hc : containsLit receivedDisconnectLit line.data = true :=
      logoutMatch1_contains h1
    have hex : ∃ u1, correlate1 s.loginRecords line.data i p = (u1, i, p) := by
      unfold correlate1
      rw [if_pos hc]
      exact ⟨_, rfl⟩
    obtain ⟨u1, hcor⟩ := hex
    have hid : logoutIdentity s.loginRecords line.data = some (u1, i, p) := by
      simp [logoutIdentity, h1, hcor]
    have hpl : processLine si now s line = emitLogout si now s u1 i p :=
      processLine_logout_eq si now s line u1 i p hlogin hid
    constructor
    · rw [hpl, hcor]
    · intro e he
      rw [hpl] at he
      unfold emitLogout at he
      revert he
      split
      · intro he; simp at he
      · intro he
        simp only [List.mem_singleton] at he
        subst he
        exact ⟨rfl, rfl⟩

/-- Witness for c8_pattern_order on a pathological line matching both
pattern 1 and pattern 2: processing equals the pattern-1 processing. -/
theorem c8_pattern_order_witness :
    processLine ⟨"host1", "192.168.1.100", "debian"⟩ 0 initialState
      "sshd[7]: Received disconnect from 1.2.3.4 port 55:11: disconnected by user sshd[8]: Disconnected from user bob 5.6.7.8 port 66" =
      emitLogout ⟨"host1", "192.168.1.100", "debian"⟩ 0 initialState
        (correlate1 initialState.loginRecords
          "sshd[7]: Received disconnect from 1.2.3.4 port 55:11: disconnected by user sshd[8]: Disconnected from user bob 5.6.7.8 port 66".data
          "1.2.3.4" "55").1
        "1.2.3.4" "55" :=
  ((c8_pattern_order ⟨"host1", "192.168.1.100", "debian"⟩ 0 initialState
      "sshd[7]: Received disconnect from 1.2.3.4 port 55:11: disconnected by user sshd[8]: Disconnected from user bob 5.6.7.8 port 66").2
    "1.2.3.4" "55" "bob" "5.6.7.8" "66" (by rfl) (by rfl) (by rfl)).1

end UserSessionMonitor

namespace UserSessionMonitor

/-- Sample event value used to exercise the bus model. -/
def sampleEvent : Event :=
  ⟨EventType.login, "alice", "10.0.0.5", "4422", 0,
    ⟨"host1", "192.168.1.100", "debian"⟩⟩

/-- Claim C2 counterexample: Subscribe does not return a new independent
channel and a published event is not delivered to all subscribers. On a
fresh bus both Subscribe calls return the one shared channel; a published
event is enqueued once, the first subscriber receive consumes it, and the
second subscriber receive then finds the shared buffer empty (blocked) —
the event reached exactly one subscriber, not both. -/
theorem c2_counterexample :
    Bus.Publish ⟨[⟨10, []⟩]⟩ ⟨0⟩ sampleEvent = some ⟨[⟨10, [sampleEvent]⟩]⟩
    ∧ recvChan ⟨[⟨10, [sampleEvent]⟩]⟩ (Bus.Subscribe ⟨0⟩) =
        some (⟨[⟨10, []⟩]⟩, sampleEvent)
    ∧ recvChan ⟨[⟨10, []⟩]⟩ (Bus.Subscribe ⟨0⟩) = none :=
  ⟨rfl, rfl, rfl⟩

/-- Claim C2 amended: every Subscribe call returns the same single shared
channel of the bus, and a Publish with buffer space enqueues the event
exactly once onto that shared buffer (so subscribers compete for events —
work-stealing — rather than each receiving a copy). -/
theorem c2_single_shared_channel (w : World) (b : Bus) (e : Event)
    (ch : ChanState) (hch : w.chans.get? b.eventChan = some ch)
    (hsp : ch.buffer.length < ch.capacity) :
    Bus.Subscribe b = b.eventChan
    ∧ Bus.Publish w b e =
        some ⟨w.chans.set b.eventChan { ch with buffer := ch.buffer ++ [e] }⟩ := by
  refine ⟨rfl, ?_⟩
  unfold Bus.Publish
  rw [hch]
  dsimp only
  rw [if_pos hsp]

/-- Witness for c2_single_shared_channel on a fresh bus of capacity 10. -/
theorem c2_single_shared_channel_witness :
    Bus.Subscribe (⟨0⟩ : Bus) = (⟨0⟩ : Bus).eventChan
    ∧ Bus.Publish ⟨[⟨10, []⟩]⟩ ⟨0⟩ sampleEvent = some ⟨[⟨10, [sampleEvent]⟩]⟩ :=
  c2_single_shared_channel ⟨[⟨10, []⟩]⟩ ⟨0⟩ sampleEvent ⟨10, []⟩ (by rfl) (by decide)

/-- Claim C3 counterexample: with the single channel at capacity 1 already
holding one event, Publish of another event does not complete (the send
blocks, modelled as none); in particular it does not return with the new
event dropped and the buffer unchanged, as the claim asserts. -/
theorem c3_counterexample :
    Bus.Publish ⟨[⟨1, [sampleEvent]⟩]⟩ ⟨0⟩ sampleEvent = none
    ∧ ¬ ∃ w2, Bus.Publish ⟨[⟨1, [sampleEvent]⟩]⟩ ⟨0⟩ sampleEvent = some w2 := by
  refine ⟨rfl, ?_⟩
  rintro ⟨w2, h⟩
  rw [show Bus.Publish ⟨[⟨1, [sampleEvent]⟩]⟩ ⟨0⟩ sampleEvent = none from rfl] at h
  exact Option.noConfusion h

/-- Claim C3 amended: Publish completes without an event loss exactly when
the shared buffer has free space, appending the event to it; when the
buffer is full the publisher blocks (the send does not complete) and
nothing is dropped. -/
theorem c3_publish_full_blocks (w : World) (b : Bus) (e : Event)
    (ch : ChanState) (hch : w.chans.get? b.eventChan = some ch) :
    (Bus.Publish w b e = none ↔ ch.capacity ≤ ch.buffer.length)
    ∧ (∀ w2, Bus.Publish w b e = some w2 →
        w2.chans.get? b.eventChan = some { ch with buffer := ch.buffer ++ [e] }) := by
  constructor
  · unfold Bus.Publish
    rw [hch]
    dsimp only
    by_cases hlt : ch.buffer.length < ch.capacity
    · rw [if_pos hlt]
      simp
      omega
    · rw [if_neg hlt]
      simp
      omega
  · intro w2 h
    unfold Bus.Publish at h
    rw [hch] at h
    dsimp only at h
    split at h
    · injection h with h
      subst h
      have hlen : b.eventChan < w.chans.length := by
        have := List.get?_eq_some.mp hch
        exact this.1
      simp [List.getElem?_set_self, hlen]
    · exact Option.noConfusion h

/-- Witness for c3_publish_full_blocks: the full-buffer case blocks. -/
theorem c3_publish_full_blocks_witness :
    Bus.Publish ⟨[⟨1, [sampleEvent]⟩]⟩ ⟨0⟩ sampleEvent = none :=
  (c3_publish_full_blocks ⟨[⟨1, [sampleEvent]⟩]⟩ ⟨0⟩ sampleEvent
    ⟨1, [sampleEvent]⟩ (by rfl)).1.mpr (by decide)

end UserSessionMonitor
